import Mathlib

/-!
Verification of the SnowWindow recommendation engine.

Shallow embedding of `src/services/snowScience.ts` and
`src/services/shoveling.ts`.  Numbers (JS `number`) are modelled as `ℚ`;
the arithmetic used by the engine is `+ - * / max min ceil floor` and
comparisons, all exact on the rationals.  `Date` values are modelled as
rational milliseconds since the epoch (the engine only ever adds fixed
offsets and compares), with the local timezone taken as UTC.
The forecast minimum temperature is `Math.min(...list)`, which is
`Infinity` on an empty list: it is modelled as `Option ℚ` with `none`
standing for `Infinity`.  Display-only string formatting (locale time
strings, `toFixed` rendering) is not modelled; all decision-relevant
fields are.
-/

namespace SnowWindow

/-- JS `Math.max` on two numbers (an explicit conditional so that
concrete inputs evaluate in the kernel). -/
def qmax (a b : ℚ) : ℚ := if a ≤ b then b else a

/-- JS `Math.min` on two numbers. -/
def qmin (a b : ℚ) : ℚ := if a ≤ b then a else b

/-- Hourly weather data point (`src/types/index.ts`, `HourlyWeather`).
`time` is in milliseconds since epoch. -/
structure HourlyWeather where
  time : ℚ
  temperature : ℚ
  snowfall : ℚ
  rain : ℚ
  cloudCover : ℚ
  windSpeed : ℚ
  isDay : Bool
deriving Repr, DecidableEq

/-- Current-conditions snapshot (`WeatherData.current`). -/
structure CurrentConditions where
  temperature : ℚ
  snowfall : ℚ
  rain : ℚ
  cloudCover : ℚ
  windSpeed : ℚ
  isDay : Bool
deriving Repr, DecidableEq

/-- Normalized weather data (`WeatherData`); location and `fetchedAt` are
not read by the engine and are omitted. -/
structure WeatherData where
  current : CurrentConditions
  hourly : List HourlyWeather
deriving Repr, DecidableEq

/-- Urgency level (`UrgencyLevel`), ordered none < low < moderate < high <
urgent. -/
inductive UrgencyLevel where
  | none
  | low
  | moderate
  | high
  | urgent
deriving Repr, DecidableEq

/-- Rank realising the tier order none < low < moderate < high < urgent. -/
def UrgencyLevel.rank : UrgencyLevel → ℕ
  | .none => 0
  | .low => 1
  | .moderate => 2
  | .high => 3
  | .urgent => 4

/-! ## Snow Science library (`snowScience.ts`) -/

/-- `RAIN_SNOW_MELT_RATIO`: 1mm of rain melts approximately 10mm of snow. -/
def RAIN_SNOW_MELT_RATIO : ℚ := 10

/-- `calculateRainMelting`. -/
def calculateRainMelting (rainMm : ℚ) : ℚ :=
  rainMm * RAIN_SNOW_MELT_RATIO

/-- `SOLAR_MELT_RATES.low` (clear sky, temp 1-5°C). -/
def SOLAR_MELT_RATES.low : ℚ := 1/2

/-- `SOLAR_MELT_RATES.moderate` (clear sky, temp 5-10°C). -/
def SOLAR_MELT_RATES.moderate : ℚ := 2

/-- `SOLAR_MELT_RATES.high` (clear sky, temp >10°C). -/
def SOLAR_MELT_RATES.high : ℚ := 5

/-- `calculateSolarMelting`. -/
def calculateSolarMelting (tempCelsius cloudCover hours : ℚ)
    (isDay : Bool) : ℚ :=
  if isDay = false ∨ tempCelsius ≤ 0 then 0
  else
    let cloudFactor := 1 - (cloudCover / 100) * (8/10)
    let rate :=
      if tempCelsius ≤ 5 then SOLAR_MELT_RATES.low
      else if tempCelsius ≤ 10 then SOLAR_MELT_RATES.moderate
      else SOLAR_MELT_RATES.high
    rate * cloudFactor * hours

/-- `SNOW_THRESHOLDS.negligible`: below this, no need to shovel. -/
def SNOW_THRESHOLDS.negligible : ℚ := 10

/-- `SNOW_THRESHOLDS.light`: light dusting, optional to clear. -/
def SNOW_THRESHOLDS.light : ℚ := 25

/-- `SNOW_THRESHOLDS.moderate`: should shovel. -/
def SNOW_THRESHOLDS.moderate : ℚ := 75

/-- `SNOW_THRESHOLDS.heavy`: shovel soon to prevent compaction. -/
def SNOW_THRESHOLDS.heavy : ℚ := 150

/-- `SNOW_THRESHOLDS.veryHeavy`: consider shoveling mid-storm. -/
def SNOW_THRESHOLDS.veryHeavy : ℚ := 200

/-- `shouldShovelMidStorm`: `accumulationMm >= SNOW_THRESHOLDS.veryHeavy`. -/
def shouldShovelMidStorm (accumulationMm : ℚ) : Bool :=
  decide (SNOW_THRESHOLDS.veryHeavy ≤ accumulationMm)

/-- `COMPACTION_FREEZE_TEMP` (Celsius). -/
def COMPACTION_FREEZE_TEMP : ℚ := 0

/-- `OPTIMAL_SHOVEL_WINDOW_HOURS`. -/
def OPTIMAL_SHOVEL_WINDOW_HOURS : ℚ := 2

/-- `WIND_THRESHOLDS.calm`. -/
def WIND_THRESHOLDS.calm : ℚ := 10

/-- `WIND_THRESHOLDS.moderate`. -/
def WIND_THRESHOLDS.moderate : ℚ := 25

/-- `WIND_THRESHOLDS.strong`. -/
def WIND_THRESHOLDS.strong : ℚ := 40

/-- `calculateWindCompactionFactor`. -/
def calculateWindCompactionFactor (windSpeedKmh : ℚ) : ℚ :=
  if windSpeedKmh < WIND_THRESHOLDS.calm then 1
  else if windSpeedKmh < WIND_THRESHOLDS.moderate then 12/10
  else if windSpeedKmh < WIND_THRESHOLDS.strong then 15/10
  else 2

/-- `adjustShovelWindowForWind`. -/
def adjustShovelWindowForWind (baseWindowHours windSpeedKmh : ℚ) : ℚ :=
  qmax (1/2) (baseWindowHours / calculateWindCompactionFactor windSpeedKmh)

/-- `SHOVEL_RATES` clearing rates in m²/min, selected by depth band. -/
def SHOVEL_RATES.light : ℚ := 5/2

/-- `SHOVEL_RATES.moderate`. -/
def SHOVEL_RATES.moderate : ℚ := 3/2

/-- `SHOVEL_RATES.heavy`. -/
def SHOVEL_RATES.heavy : ℚ := 4/5

/-- `SHOVEL_RATES.veryHeavy`. -/
def SHOVEL_RATES.veryHeavy : ℚ := 2/5

/-- `calculateManpower`: `Math.ceil(areaSquareMeters / rate)`. -/
def calculateManpower (areaSquareMeters snowDepthMm : ℚ) : ℤ :=
  let rate :=
    if snowDepthMm < 50 then SHOVEL_RATES.light
    else if snowDepthMm < 100 then SHOVEL_RATES.moderate
    else if snowDepthMm < 200 then SHOVEL_RATES.heavy
    else SHOVEL_RATES.veryHeavy
  ⌈areaSquareMeters / rate⌉

/-- `SALT_EFFECTIVENESS.ineffective`: below −15°C salt is largely
ineffective, use sand. -/
def SALT_EFFECTIVENESS.ineffective : ℚ := -15

/-- `calculateNetAccumulation`:
`max(0, snowfallMm - calculateRainMelting(rainMm) - solarMeltMm)`. -/
def calculateNetAccumulation (snowfallMm rainMm solarMeltMm : ℚ) : ℚ :=
  let rainMelt := calculateRainMelting rainMm
  let net := snowfallMm - rainMelt - solarMeltMm
  qmax 0 net

/-- The forecast minimum temperature is `Math.min(...temps)` in the source,
which is `Infinity` for an empty list.  `none` stands for `Infinity`;
`minTempLt m c` is the JS comparison `m < c` (always false at Infinity). -/
def minTempLt (forecastMinTemp : Option ℚ) (c : ℚ) : Bool :=
  match forecastMinTemp with
  | Option.none => false
  | some t => decide (t < c)

/-- Output record of `getSaltRecommendation`. -/
structure SaltRec where
  shouldApply : Bool
  reason : String
  waitForRain : Bool
deriving Repr, DecidableEq

/-- Modelled from the spec: the repository's current five-parameter
`getSaltRecommendation` (in `snowScience.ts`) is not present under `src/`
— only its unit tests (`snowScience.test.ts`) and its caller
(`generateRecommendation` in `shoveling.ts`) are; `src/unnamed/part_001`
holds an earlier three-parameter revision without the rain logic.
Spec §4.1 gives the checks in precedence order: too cold to work below the
−15°C ineffectiveness floor → don't apply, advise sand; currently raining
meaningfully → don't apply, flag `wait_for_rain`; rain expected with no
freeze in forecast → don't apply ("no freeze expected"); rain then freeze
→ wait for rain, apply after (per the unit tests: reason mentions "after
rain", `waitForRain` set); freeze expected while currently above freezing
→ apply now, preventively; snow expected with freeze risk → apply after
clearing; otherwise no need. -/
def getSaltRecommendation (currentTemp : ℚ) (forecastMinTemp : Option ℚ)
    (snowExpected : Bool) (currentRainRate : ℚ) (rainExpected : Bool) :
    SaltRec :=
  if minTempLt forecastMinTemp SALT_EFFECTIVENESS.ineffective then
    ⟨false, "Too cold for salt. Use sand instead.", false⟩
  else if 1 < currentRainRate then
    ⟨false, "Rain is washing salt away. Wait for rain to stop.", true⟩
  else if rainExpected && !(minTempLt forecastMinTemp 0) then
    ⟨false, "Rain expected with no freeze expected - salt not needed.", false⟩
  else if rainExpected && minTempLt forecastMinTemp 0 then
    ⟨true, "Apply salt after rain stops to prevent refreeze.", true⟩
  else if decide (0 < currentTemp) && minTempLt forecastMinTemp 0 then
    ⟨true, "Apply salt now before freezing temperatures arrive.", false⟩
  else if snowExpected && minTempLt forecastMinTemp 0 then
    ⟨true, "Apply salt after shoveling to prevent ice formation.", false⟩
  else
    ⟨false, "Salt not currently needed.", false⟩


/-! ## Recommendation engine (`shoveling.ts`, `generateRecommendation`)

The source reads `new Date()` internally; following spec §9 the embedding
threads `now` as an explicit parameter.  `carDepartureTime` ("HH:MM") is
modelled post-parsing as the pair of hour and minute numbers. -/

/-- One hour in milliseconds. -/
def HOUR_MS : ℚ := 3600000

/-- One day in milliseconds. -/
def DAY_MS : ℚ := 86400000

/-- `d.setHours(h, m, 0, 0)` on a date `t` (ms): start of the local day of
`t` plus the given time of day, with the local timezone taken as UTC. -/
def atTimeOfDay (t : ℚ) (h m : ℕ) : ℚ :=
  (⌊t / DAY_MS⌋ : ℚ) * DAY_MS + (h : ℚ) * HOUR_MS + (m : ℚ) * 60000

/-- The past window: samples with
`accumulationStartTime <= time <= now`, where `accumulationStartTime` is
`lastShoveledAt` if within the past 24h, else `now − 24h`. -/
def pastHoursOf (hourly : List HourlyWeather) (lastShoveledAt : Option ℚ)
    (now : ℚ) : List HourlyWeather :=
  let past24h := now - 24 * HOUR_MS
  let accumulationStartTime :=
    match lastShoveledAt with
    | some t => if past24h < t then t else past24h
    | Option.none => past24h
  hourly.filter fun h =>
    decide (accumulationStartTime ≤ h.time) && decide (h.time ≤ now)

/-- The future window: samples whose hour offset from `now` lies in
`[0, 24]`. -/
def next24HoursOf (hourly : List HourlyWeather) (now : ℚ) :
    List HourlyWeather :=
  hourly.filter fun h =>
    let hoursDiff := (h.time - now) / HOUR_MS
    decide (0 ≤ hoursDiff) && decide (hoursDiff ≤ 24)

/-- Sum of `snowfall` over a window. -/
def snowfallSum (hs : List HourlyWeather) : ℚ :=
  (hs.map (·.snowfall)).sum

/-- Sum of `rain` over a window. -/
def rainSum (hs : List HourlyWeather) : ℚ :=
  (hs.map (·.rain)).sum

/-- Per-sample solar melt, summed over a window: the loops call
`calculateSolarMelting(temp, cloud, 1, isDay)` only when
`isDay && temperature > 0`. -/
def solarMeltSum (hs : List HourlyWeather) : ℚ :=
  (hs.map fun h =>
    if h.isDay = true ∧ 0 < h.temperature then
      calculateSolarMelting h.temperature h.cloudCover 1 h.isDay
    else 0).sum

/-- Net accumulation over past plus future windows. -/
def netAccumulationOf (weather : WeatherData) (lastShoveledAt : Option ℚ)
    (now : ℚ) : ℚ :=
  let pastHours := pastHoursOf weather.hourly lastShoveledAt now
  let next24Hours := next24HoursOf weather.hourly now
  calculateNetAccumulation
    (snowfallSum pastHours + snowfallSum next24Hours)
    (rainSum pastHours + rainSum next24Hours)
    (solarMeltSum pastHours + solarMeltSum next24Hours)

/-- First future sample with `snowfall > 0` ("snow start"). -/
def snowStartTimeOf (hourly : List HourlyWeather) (now : ℚ) : Option ℚ :=
  ((next24HoursOf hourly now).find? fun h => decide (0 < h.snowfall)).map
    (·.time)

/-- Snow stop: last future sample with `snowfall > 0`, plus one hour. -/
def snowStopTimeOf (hourly : List HourlyWeather) (now : ℚ) : Option ℚ :=
  (((next24HoursOf hourly now).filter fun h =>
      decide (0 < h.snowfall)).getLast?).map (·.time + HOUR_MS)

/-- The adjacent-pair scan: some sample with `snowfall > 0` immediately
followed by one with `rain > 1`. -/
def hasSnowThenRainScan : List HourlyWeather → Bool
  | a :: b :: rest =>
    (decide (0 < a.snowfall) && decide (1 < b.rain))
      || hasSnowThenRainScan (b :: rest)
  | _ => false

/-- Slush warning: snow-then-rain (adjacent-pair scan on the future
window, or past snow > 5 with future rain > 2) and total snowfall > 5. -/
def slushWarningOf (hourly : List HourlyWeather) (lastShoveledAt : Option ℚ)
    (now : ℚ) : Bool :=
  let pastHours := pastHoursOf hourly lastShoveledAt now
  let next24Hours := next24HoursOf hourly now
  let hasSnowThenRain :=
    hasSnowThenRainScan next24Hours
      || (decide (5 < snowfallSum pastHours)
            && decide (2 < rainSum next24Hours))
  hasSnowThenRain && decide (5 < snowfallSum pastHours + snowfallSum next24Hours)

/-- Snowplow pile override: a caller-supplied pile height that is a
positive number. -/
def pileDetected (snowplowPileHeight : Option ℚ) : Bool :=
  match snowplowPileHeight with
  | some p => decide (0 < p)
  | Option.none => false

/-- Driveway-blocking check: overnight snowfall from the most recent
18:00 to the next occurrence of the departure time is at least 5mm. -/
def blocksDrivewayOf (hourly : List HourlyWeather)
    (carDepartureTime : Option (ℕ × ℕ)) (now : ℚ) : Bool :=
  match carDepartureTime with
  | Option.none => false
  | some (depHour, depMin) =>
    let departureToday0 := atTimeOfDay now depHour depMin
    let departureToday :=
      if departureToday0 < now then departureToday0 + DAY_MS
      else departureToday0
    let overnightStart0 := atTimeOfDay now 18 0
    let overnightStart :=
      if now < overnightStart0 then overnightStart0 - DAY_MS
      else overnightStart0
    let overnightHours := hourly.filter fun h =>
      decide (overnightStart ≤ h.time) && decide (h.time ≤ departureToday)
    decide (5 ≤ snowfallSum overnightHours)

/-- Freeze deadline: skipped entirely when already below freezing,
otherwise the first future sample strictly after `now` with temperature
below `COMPACTION_FREEZE_TEMP`. -/
def freezeTimeOf (current : CurrentConditions) (hourly : List HourlyWeather)
    (now : ℚ) : Option ℚ :=
  if current.temperature < COMPACTION_FREEZE_TEMP then Option.none
  else
    ((next24HoursOf hourly now).find? fun h =>
      decide (now < h.time)
        && decide (h.temperature < COMPACTION_FREEZE_TEMP)).map (·.time)

/-- `Math.min(...next24Hours.map(h => h.temperature))`; `none` is the
empty-list `Infinity`. -/
def minTempOf (hourly : List HourlyWeather) (now : ℚ) : Option ℚ :=
  match (next24HoursOf hourly now).map (·.temperature) with
  | [] => Option.none
  | t :: ts => some (ts.foldl qmin t)

/-- Mean wind speed over the future window, 0 when it is empty. -/
def avgWindSpeedOf (hourly : List HourlyWeather) (now : ℚ) : ℚ :=
  let next24Hours := next24HoursOf hourly now
  if 0 < next24Hours.length then
    ((next24Hours.map (·.windSpeed)).sum) / (next24Hours.length : ℚ)
  else 0

/-- The mid-storm guard: currently precipitating snow and accumulation at
the very-heavy threshold. -/
def midStormGuard (currentSnowfall netAccumulation : ℚ) : Bool :=
  decide (0 < currentSnowfall) && shouldShovelMidStorm netAccumulation

/-- The accumulation-band escalation at the end of the moderate-and-above
branch: each band takes one tier, bumped one step when the freeze check
already set `high`. -/
def bandUrgency (netAccumulation : ℚ) (u : UrgencyLevel) : UrgencyLevel :=
  if SNOW_THRESHOLDS.heavy ≤ netAccumulation then
    if u = UrgencyLevel.high then UrgencyLevel.urgent else UrgencyLevel.high
  else if SNOW_THRESHOLDS.moderate ≤ netAccumulation then
    if u = UrgencyLevel.high then UrgencyLevel.high else UrgencyLevel.moderate
  else
    if u = UrgencyLevel.high then UrgencyLevel.moderate else UrgencyLevel.low

/-- The freeze step of the moderate-and-above branch: if a freeze deadline
exists and the target falls after it, pull the target back 30 minutes
before the freeze and set the tier to high; the pair is the tier set by
this step (initial value is the branch's starting `none`) and the target. -/
def pulledTarget (target0 : ℚ) (freezeTime : Option ℚ) : UrgencyLevel × ℚ :=
  match freezeTime with
  | some ft =>
    if ft < target0 then (UrgencyLevel.high, ft - 30 * 60000)
    else (UrgencyLevel.none, target0)
  | Option.none => (UrgencyLevel.none, target0)

/-- The not-in-the-past clamp on the target: a past target becomes the snow
stop while it is still snowing (and the stop is ahead), else `now`. -/
def clampTarget (target now st currentSnowfall : ℚ) : ℚ :=
  if target < now then
    if decide (0 < currentSnowfall) && decide (now < st) then st
    else now
  else target

/-- The urgency decision tree of `generateRecommendation`, producing
`(urgency, shouldShovel, optimalTime)`. -/
def urgencyDecision (currentSnowfall netAccumulation : ℚ)
    (snowplowPileDetected blocksDriveway slushWarning : Bool)
    (snowStopTime freezeTime : Option ℚ) (avgWindSpeed now : ℚ) :
    UrgencyLevel × Bool × Option ℚ :=
  if midStormGuard currentSnowfall netAccumulation then
    (UrgencyLevel.urgent, true, some now)
  else if netAccumulation < SNOW_THRESHOLDS.negligible then
    if snowplowPileDetected then (UrgencyLevel.moderate, true, some now)
    else if blocksDriveway then (UrgencyLevel.moderate, true, some now)
    else if slushWarning then (UrgencyLevel.low, true, some now)
    else (UrgencyLevel.none, false, Option.none)
  else if netAccumulation < SNOW_THRESHOLDS.light then
    if snowplowPileDetected then (UrgencyLevel.moderate, true, some now)
    else if blocksDriveway then (UrgencyLevel.moderate, true, some now)
    else if slushWarning then (UrgencyLevel.low, true, some now)
    else (UrgencyLevel.low, false, Option.none)
  else
    match snowStopTime with
    | some st =>
      let adjustedWindow :=
        adjustShovelWindowForWind OPTIMAL_SHOVEL_WINDOW_HOURS avgWindSpeed
      let pulled := pulledTarget (st + adjustedWindow * HOUR_MS) freezeTime
      (bandUrgency netAccumulation pulled.1, true,
        some (clampTarget pulled.2 now st currentSnowfall))
    | Option.none =>
      (bandUrgency netAccumulation UrgencyLevel.none, true, some now)

/-- Salt advice record nested in the Recommendation (`SaltAdvice`); the
display-only `amount` and `timingMessage` strings are not modelled. -/
structure SaltAdvice where
  shouldApply : Bool
  reason : String
  timing : Option ℚ
deriving Repr, DecidableEq

/-- Engine output (`ShovelingRecommendation`); the display-only `message`
and `reasoning` strings are not modelled. -/
structure ShovelingRecommendation where
  shouldShovel : Bool
  urgency : UrgencyLevel
  optimalTime : Option ℚ
  estimatedMinutes : Option ℤ
  salt : SaltAdvice
  totalAccumulation : ℚ
  slushWarning : Bool
  blocksDriveway : Bool
  snowplowPileDetected : Bool
  isCurrentlySnowing : Bool
  snowStartTime : Option ℚ
  snowStopTime : Option ℚ
deriving Repr, DecidableEq

/-- `generateRecommendation` with `now` threaded explicitly (spec §9). -/
def generateRecommendation (weather : WeatherData) (areaSquareMeters : ℚ)
    (lastShoveledAt snowplowPileHeight : Option ℚ)
    (carDepartureTime : Option (ℕ × ℕ)) (now : ℚ) :
    ShovelingRecommendation :=
  let pastHours := pastHoursOf weather.hourly lastShoveledAt now
  let next24Hours := next24HoursOf weather.hourly now
  let totalSnowfall := snowfallSum pastHours + snowfallSum next24Hours
  let totalRain := rainSum pastHours + rainSum next24Hours
  let netAccumulation := netAccumulationOf weather lastShoveledAt now
  let slushWarning := slushWarningOf weather.hourly lastShoveledAt now
  let snowplowPileDetected := pileDetected snowplowPileHeight
  let blocksDriveway :=
    blocksDrivewayOf weather.hourly carDepartureTime now
  let freezeTime := freezeTimeOf weather.current weather.hourly now
  let minTemp := minTempOf weather.hourly now
  let avgWindSpeed := avgWindSpeedOf weather.hourly now
  let snowStartTime := snowStartTimeOf weather.hourly now
  let snowStopTime := snowStopTimeOf weather.hourly now
  let decision :=
    urgencyDecision weather.current.snowfall netAccumulation
      snowplowPileDetected blocksDriveway slushWarning
      snowStopTime freezeTime avgWindSpeed now
  let urgency := decision.1
  let shouldShovel := decision.2.1
  let optimalTime := decision.2.2
  let estimatedMinutes :=
    if shouldShovel then
      some (calculateManpower areaSquareMeters netAccumulation)
    else Option.none
  let rainExpected := decide (2 < totalRain)
  let saltRec :=
    getSaltRecommendation weather.current.temperature minTemp
      (decide (SNOW_THRESHOLDS.negligible < totalSnowfall))
      weather.current.rain rainExpected
  let salt : SaltAdvice :=
    { shouldApply := saltRec.shouldApply
      reason := saltRec.reason
      timing := if saltRec.shouldApply then optimalTime else Option.none }
  let isCurrentlySnowing := decide (0 < weather.current.snowfall)
  { shouldShovel := shouldShovel
    urgency := urgency
    optimalTime := optimalTime
    estimatedMinutes := estimatedMinutes
    salt := salt
    totalAccumulation := netAccumulation
    slushWarning := slushWarning
    blocksDriveway := blocksDriveway
    snowplowPileDetected := snowplowPileDetected
    isCurrentlySnowing := isCurrentlySnowing
    snowStartTime := snowStartTime
    snowStopTime := snowStopTime }

/-- The spec's formula for `melt_from_sun` (§4.1): 0 when it is night or
at or below freezing; otherwise a temperature-banded rate (≤5°C → 0.5
mm/h, ≤10°C → 2 mm/h, else 5 mm/h) scaled by `1 − (cloud/100)·0.8` and
multiplied by the hours. -/
def melt_from_sun_spec (temp_c cloud_pct hours : ℚ) (is_day : Bool) : ℚ :=
  if is_day = false ∨ temp_c ≤ 0 then 0
  else
    (if temp_c ≤ 5 then 1/2 else if temp_c ≤ 10 then 2 else 5)
      * (1 - (cloud_pct / 100) * (8/10)) * hours

/-- Current conditions used for the freeze-pullback instance: 1°C, no
precipitation now. -/
def c2current : CurrentConditions := ⟨1, 0, 0, 0, 0, false⟩

/-- Hourly series for the freeze-pullback instance: 30mm of snow in hour
one, then a drop to −5°C in hour two. -/
def c2hourly : List HourlyWeather :=
  [⟨3600000, 2, 30, 0, 0, 0, false⟩, ⟨7200000, -5, 0, 0, 0, 0, false⟩]

/-- Weather input for the freeze-pullback instance. -/
def c2weather : WeatherData := ⟨c2current, c2hourly⟩

/-- Current conditions shared by the monotonicity instance. -/
def c7current : CurrentConditions := ⟨-8, 0, 0, 95, 15, false⟩

/-- Below-negligible weather for the monotonicity instance. -/
def c7w1 : WeatherData := ⟨c7current, []⟩

/-- Above-heavy weather for the monotonicity instance: 180mm in hour
one. -/
def c7w2 : WeatherData :=
  ⟨c7current, [⟨3600000, -8, 180, 0, 95, 15, false⟩]⟩

/-! ## Conformance with the salt unit tests (`snowScience.test.ts`) -/

example :
    (getSaltRecommendation 5 (some (-3)) true 0 false).shouldApply = true := by
  decide

example :
    (getSaltRecommendation (-20) (some (-25)) true 0 false).shouldApply
      = false := by
  decide

example : (getSaltRecommendation 2 (some (-5)) true 5 false).waitForRain
      = true := by
  decide

example : (getSaltRecommendation 5 (some (-3)) false 0 true).waitForRain
      = true := by
  decide

example :
    (getSaltRecommendation 5 (some 5) false 0 true).shouldApply = false := by
  decide

/-! ## Projection lemmas: the engine's fields in terms of the pipeline -/

theorem generateRecommendation_urgency (w : WeatherData) (a : ℚ)
    (l p : Option ℚ) (c : Option (ℕ × ℕ)) (now : ℚ) :
    (generateRecommendation w a l p c now).urgency =
      (urgencyDecision w.current.snowfall (netAccumulationOf w l now)
        (pileDetected p) (blocksDrivewayOf w.hourly c now)
        (slushWarningOf w.hourly l now) (snowStopTimeOf w.hourly now)
        (freezeTimeOf w.current w.hourly now) (avgWindSpeedOf w.hourly now)
        now).1 := rfl

theorem generateRecommendation_shouldShovel (w : WeatherData) (a : ℚ)
    (l p : Option ℚ) (c : Option (ℕ × ℕ)) (now : ℚ) :
    (generateRecommendation w a l p c now).shouldShovel =
      (urgencyDecision w.current.snowfall (netAccumulationOf w l now)
        (pileDetected p) (blocksDrivewayOf w.hourly c now)
        (slushWarningOf w.hourly l now) (snowStopTimeOf w.hourly now)
        (freezeTimeOf w.current w.hourly now) (avgWindSpeedOf w.hourly now)
        now).2.1 := rfl

theorem generateRecommendation_optimalTime (w : WeatherData) (a : ℚ)
    (l p : Option ℚ) (c : Option (ℕ × ℕ)) (now : ℚ) :
    (generateRecommendation w a l p c now).optimalTime =
      (urgencyDecision w.current.snowfall (netAccumulationOf w l now)
        (pileDetected p) (blocksDrivewayOf w.hourly c now)
        (slushWarningOf w.hourly l now) (snowStopTimeOf w.hourly now)
        (freezeTimeOf w.current w.hourly now) (avgWindSpeedOf w.hourly now)
        now).2.2 := rfl

theorem generateRecommendation_totalAccumulation (w : WeatherData) (a : ℚ)
    (l p : Option ℚ) (c : Option (ℕ × ℕ)) (now : ℚ) :
    (generateRecommendation w a l p c now).totalAccumulation =
      netAccumulationOf w l now := rfl

theorem generateRecommendation_isCurrentlySnowing (w : WeatherData) (a : ℚ)
    (l p : Option ℚ) (c : Option (ℕ × ℕ)) (now : ℚ) :
    (generateRecommendation w a l p c now).isCurrentlySnowing =
      decide (0 < w.current.snowfall) := rfl

/-! ## Lemmas about the urgency decision tree -/

theorem bandUrgency_ne_none (na : ℚ) (u : UrgencyLevel) :
    bandUrgency na u ≠ UrgencyLevel.none := by
  unfold bandUrgency
  repeat' split
  all_goals simp

theorem midStormGuard_false_of_small (cs na : ℚ)
    (h : na < SNOW_THRESHOLDS.veryHeavy) : midStormGuard cs na = false := by
  have : shouldShovelMidStorm na = false := by
    simp [shouldShovelMidStorm]
    linarith
  simp [midStormGuard, this]

theorem clampTarget_ge (target now st cs : ℚ) :
    now ≤ clampTarget target now st cs := by
  unfold clampTarget
  split
  · split
    · next h =>
      simp only [Bool.and_eq_true, decide_eq_true_eq] at h
      exact le_of_lt h.2
    · exact le_refl now
  · next h => linarith [not_lt.mp h]

theorem urgencyDecision_none_of_shovel (cs na : ℚ) (pd bd sw : Bool)
    (sst ftm : Option ℚ) (aw now : ℚ) :
    (urgencyDecision cs na pd bd sw sst ftm aw now).1 = UrgencyLevel.none →
      (urgencyDecision cs na pd bd sw sst ftm aw now).2.1 = false := by
  unfold urgencyDecision
  repeat' split
  all_goals try simp_all [bandUrgency_ne_none]

theorem urgencyDecision_time_ge (cs na : ℚ) (pd bd sw : Bool)
    (sst ftm : Option ℚ) (aw now : ℚ) :
    ∀ t : ℚ, (urgencyDecision cs na pd bd sw sst ftm aw now).2.2 = some t →
      now ≤ t := by
  unfold urgencyDecision
  repeat' split
  all_goals try simp_all [clampTarget_ge]

theorem urgencyDecision_rank_le_of_negligible (cs na : ℚ) (pd bd sw : Bool)
    (sst ftm : Option ℚ) (aw now : ℚ)
    (h : na < SNOW_THRESHOLDS.negligible) :
    (urgencyDecision cs na pd bd sw sst ftm aw now).1.rank ≤ 2 := by
  have hmid : midStormGuard cs na = false := by
    apply midStormGuard_false_of_small
    unfold SNOW_THRESHOLDS.negligible at h
    unfold SNOW_THRESHOLDS.veryHeavy
    linarith
  unfold urgencyDecision
  simp only [hmid, Bool.false_eq_true, if_false, if_pos h]
  repeat' split
  all_goals simp [UrgencyLevel.rank]

theorem urgencyDecision_freeze_pull (cs na : ℚ) (pd bd sw : Bool)
    (aw now st ft : ℚ)
    (hmid : midStormGuard cs na = false)
    (hna : SNOW_THRESHOLDS.light ≤ na)
    (hpull : ft < st +
      adjustShovelWindowForWind OPTIMAL_SHOVEL_WINDOW_HOURS aw * HOUR_MS) :
    urgencyDecision cs na pd bd sw (some st) (some ft) aw now
      = (bandUrgency na UrgencyLevel.high, true,
         some (clampTarget (ft - 30 * 60000) now st cs)) := by
  have h1 : ¬ na < SNOW_THRESHOLDS.negligible := by
    unfold SNOW_THRESHOLDS.negligible
    unfold SNOW_THRESHOLDS.light at hna
    linarith
  have h2 : ¬ na < SNOW_THRESHOLDS.light := not_lt.mpr hna
  unfold urgencyDecision
  simp only [hmid, Bool.false_eq_true, if_false, h1, h2]
  simp [pulledTarget, hpull]

theorem bandUrgency_high_rank (na : ℚ)
    (h : SNOW_THRESHOLDS.moderate ≤ na) :
    UrgencyLevel.rank UrgencyLevel.high
      ≤ (bandUrgency na UrgencyLevel.high).rank := by
  unfold bandUrgency
  repeat' split
  all_goals simp_all [UrgencyLevel.rank]

theorem urgencyDecision_rank_ge_of_heavy (cs na : ℚ) (pd bd sw : Bool)
    (sst ftm : Option ℚ) (aw now : ℚ)
    (h : SNOW_THRESHOLDS.heavy < na) :
    3 ≤ (urgencyDecision cs na pd bd sw sst ftm aw now).1.rank := by
  have h1 : ¬ na < SNOW_THRESHOLDS.negligible := by
    unfold SNOW_THRESHOLDS.negligible
    unfold SNOW_THRESHOLDS.heavy at h
    linarith
  have h2 : ¬ na < SNOW_THRESHOLDS.light := by
    unfold SNOW_THRESHOLDS.light
    unfold SNOW_THRESHOLDS.heavy at h
    linarith
  have hband : ∀ u : UrgencyLevel, 3 ≤ (bandUrgency na u).rank := by
    intro u
    unfold bandUrgency
    have hge : SNOW_THRESHOLDS.heavy ≤ na := le_of_lt h
    simp only [if_pos hge]
    split
    all_goals simp [UrgencyLevel.rank]
  unfold urgencyDecision
  repeat' split
  all_goals try simp_all [UrgencyLevel.rank, hband]

/-! ## Lemmas for the empty hourly series -/

theorem pastHoursOf_nil (l : Option ℚ) (now : ℚ) :
    pastHoursOf [] l now = [] := by
  simp [pastHoursOf]

theorem next24HoursOf_nil (now : ℚ) : next24HoursOf [] now = [] := by
  simp [next24HoursOf]

theorem netAccumulationOf_nil (cur : CurrentConditions) (l : Option ℚ)
    (now : ℚ) : netAccumulationOf ⟨cur, []⟩ l now = 0 := by
  simp [netAccumulationOf, pastHoursOf_nil, next24HoursOf_nil, snowfallSum,
    rainSum, solarMeltSum, calculateNetAccumulation, calculateRainMelting,
    qmax]

theorem slushWarningOf_nil (l : Option ℚ) (now : ℚ) :
    slushWarningOf [] l now = false := by
  simp [slushWarningOf, pastHoursOf_nil, next24HoursOf_nil,
    hasSnowThenRainScan, snowfallSum, rainSum]

theorem blocksDrivewayOf_nil (c : Option (ℕ × ℕ)) (now : ℚ) :
    blocksDrivewayOf [] c now = false := by
  cases c with
  | none => rfl
  | some hm =>
    obtain ⟨dh, dm⟩ := hm
    simp [blocksDrivewayOf, snowfallSum]

theorem snowStopTimeOf_nil (now : ℚ) :
    snowStopTimeOf [] now = Option.none := by
  simp [snowStopTimeOf, next24HoursOf_nil]

theorem freezeTimeOf_nil (cur : CurrentConditions) (now : ℚ) :
    freezeTimeOf cur [] now = Option.none := by
  simp [freezeTimeOf, next24HoursOf_nil]

theorem urgencyDecision_empty (cs aw now : ℚ) (pd : Bool)
    (ftm : Option ℚ) :
    urgencyDecision cs 0 pd false false Option.none ftm aw now
      = if pd then (UrgencyLevel.moderate, true, some now)
        else (UrgencyLevel.none, false, Option.none) := by
  have hmid : midStormGuard cs 0 = false := by
    apply midStormGuard_false_of_small
    norm_num [SNOW_THRESHOLDS.veryHeavy]
  unfold urgencyDecision
  norm_num [hmid, SNOW_THRESHOLDS.negligible]

/-! ## Claims -/

/-- C1: `getSaltRecommendation` — when it is currently raining
meaningfully (rate above 1 mm/h) and the forecast low is not below the
−15°C ineffectiveness floor, the result is apply = false with the
wait-for-rain flag set, for all freeze/snow inputs (so the active-rain
check sits after the cold check and before the freeze/no-freeze logic);
when rain is expected, it is not raining meaningfully now and no freeze
is in the forecast, the result is apply = false with the no-freeze
reason; and the cold check takes precedence over the active-rain check. -/
theorem C1_salt_rain_precedence (currentTemp : ℚ)
    (forecastMinTemp : Option ℚ) (snowExpected : Bool)
    (currentRainRate : ℚ) (rainExpected : Bool) :
    (1 < currentRainRate →
      minTempLt forecastMinTemp SALT_EFFECTIVENESS.ineffective = false →
      (getSaltRecommendation currentTemp forecastMinTemp snowExpected
          currentRainRate rainExpected).shouldApply = false
        ∧ (getSaltRecommendation currentTemp forecastMinTemp snowExpected
          currentRainRate rainExpected).waitForRain = true)
    ∧ (rainExpected = true → currentRainRate ≤ 1 →
      minTempLt forecastMinTemp 0 = false →
      (getSaltRecommendation currentTemp forecastMinTemp snowExpected
          currentRainRate rainExpected).shouldApply = false
        ∧ (getSaltRecommendation currentTemp forecastMinTemp snowExpected
          currentRainRate rainExpected).reason
          = "Rain expected with no freeze expected - salt not needed.")
    ∧ (minTempLt forecastMinTemp SALT_EFFECTIVENESS.ineffective = true →
      (getSaltRecommendation currentTemp forecastMinTemp snowExpected
          currentRainRate rainExpected).shouldApply = false
        ∧ (getSaltRecommendation currentTemp forecastMinTemp snowExpected
          currentRainRate rainExpected).waitForRain = false) := by
  refine ⟨?_, ?_, ?_⟩
  · intro hr hc
    unfold getSaltRecommendation
    simp [hc, hr]
  · intro hre hr hnf
    have hc : minTempLt forecastMinTemp SALT_EFFECTIVENESS.ineffective
        = false := by
      unfold minTempLt at hnf ⊢
      cases forecastMinTemp with
      | none => rfl
      | some t =>
        simp only [decide_eq_false_iff_not, not_lt] at hnf ⊢
        unfold SALT_EFFECTIVENESS.ineffective
        linarith
    have hr2 : ¬ 1 < currentRainRate := not_lt.mpr hr
    unfold getSaltRecommendation
    simp [hc, hr2, hre, hnf]
  · intro hc
    unfold getSaltRecommendation
    simp [hc]

/-- C1 witness: the theorem applied at the unit tests' inputs. -/
theorem C1_salt_rain_precedence_witness :
    ((getSaltRecommendation 2 (some (-5)) true 5 false).shouldApply = false
      ∧ (getSaltRecommendation 2 (some (-5)) true 5 false).waitForRain
          = true)
    ∧ ((getSaltRecommendation 5 (some 5) false 0 true).shouldApply = false
      ∧ (getSaltRecommendation 5 (some 5) false 0 true).reason
          = "Rain expected with no freeze expected - salt not needed.")
    ∧ ((getSaltRecommendation (-20) (some (-25)) true 5 false).shouldApply
          = false
      ∧ (getSaltRecommendation (-20) (some (-25)) true 5 false).waitForRain
          = false) :=
  ⟨(C1_salt_rain_precedence 2 (some (-5)) true 5 false).1 (by norm_num)
      (by decide),
   (C1_salt_rain_precedence 5 (some 5) false 0 true).2.1 rfl (by norm_num)
      (by decide),
   (C1_salt_rain_precedence (-20) (some (-25)) true 5 false).2.2
      (by decide)⟩


theorem c2_net : netAccumulationOf c2weather Option.none 0 = 30 := by
  norm_num [netAccumulationOf, c2weather, c2current, c2hourly, pastHoursOf,
    next24HoursOf, HOUR_MS, List.filter, snowfallSum, rainSum, solarMeltSum,
    calculateNetAccumulation, calculateRainMelting, RAIN_SNOW_MELT_RATIO,
    qmax, calculateSolarMelting]

theorem c2_stop : snowStopTimeOf c2weather.hourly 0 = some 7200000 := by
  norm_num [snowStopTimeOf, next24HoursOf, c2weather, c2hourly, HOUR_MS,
    List.filter]

theorem c2_freeze :
    freezeTimeOf c2weather.current c2weather.hourly 0 = some 7200000 := by
  norm_num [freezeTimeOf, next24HoursOf, c2weather, c2current, c2hourly,
    HOUR_MS, List.filter, COMPACTION_FREEZE_TEMP, List.find?]

theorem c2_wind : avgWindSpeedOf c2weather.hourly 0 = 0 := by
  norm_num [avgWindSpeedOf, next24HoursOf, c2weather, c2hourly, HOUR_MS,
    List.filter]

theorem c2_slush : slushWarningOf c2weather.hourly Option.none 0 = false := by
  norm_num [slushWarningOf, pastHoursOf, next24HoursOf, c2weather, c2hourly,
    HOUR_MS, List.filter, hasSnowThenRainScan, snowfallSum, rainSum]

theorem c2_adjust :
    adjustShovelWindowForWind OPTIMAL_SHOVEL_WINDOW_HOURS
      (avgWindSpeedOf c2weather.hourly 0) = 2 := by
  rw [c2_wind]
  norm_num [adjustShovelWindowForWind, calculateWindCompactionFactor,
    WIND_THRESHOLDS.calm, OPTIMAL_SHOVEL_WINDOW_HOURS, qmax]

theorem c2_decision :
    urgencyDecision c2weather.current.snowfall
      (netAccumulationOf c2weather Option.none 0) (pileDetected Option.none)
      (blocksDrivewayOf c2weather.hourly Option.none 0)
      (slushWarningOf c2weather.hourly Option.none 0)
      (snowStopTimeOf c2weather.hourly 0)
      (freezeTimeOf c2weather.current c2weather.hourly 0)
      (avgWindSpeedOf c2weather.hourly 0) 0
      = (UrgencyLevel.moderate, true, some 5400000) := by
  rw [c2_net, c2_stop, c2_freeze, c2_slush]
  unfold urgencyDecision
  rw [show pileDetected Option.none = false from rfl,
    show blocksDrivewayOf c2weather.hourly Option.none 0 = false from rfl,
    c2_adjust]
  norm_num [midStormGuard, shouldShovelMidStorm, SNOW_THRESHOLDS.veryHeavy,
    SNOW_THRESHOLDS.negligible, SNOW_THRESHOLDS.light, SNOW_THRESHOLDS.heavy,
    SNOW_THRESHOLDS.moderate, c2weather, c2current, HOUR_MS, pulledTarget,
    clampTarget, bandUrgency]

/-- C2 counterexample: an input in the moderate-and-above branch (net
accumulation 30mm ≥ 25mm) with snow stop 2h, freeze deadline 2h and
wind-adjusted target 4h after the freeze, so the target is pulled back to
1h30 (freeze − 30 min) — yet the final urgency is moderate, strictly
below the high tier the claim asserts. -/
theorem C2_counterexample :
    netAccumulationOf c2weather Option.none 0 = 30
    ∧ snowStopTimeOf c2weather.hourly 0 = some 7200000
    ∧ freezeTimeOf c2weather.current c2weather.hourly 0 = some 7200000
    ∧ (7200000 : ℚ) < 7200000 +
        adjustShovelWindowForWind OPTIMAL_SHOVEL_WINDOW_HOURS
          (avgWindSpeedOf c2weather.hourly 0) * HOUR_MS
    ∧ (generateRecommendation c2weather 50 Option.none Option.none
        Option.none 0).optimalTime = some 5400000
    ∧ (generateRecommendation c2weather 50 Option.none Option.none
        Option.none 0).urgency = UrgencyLevel.moderate
    ∧ UrgencyLevel.moderate.rank < UrgencyLevel.high.rank := by
  refine ⟨c2_net, c2_stop, c2_freeze, ?_, ?_, ?_, ?_⟩
  · rw [c2_adjust]
    norm_num [HOUR_MS]
  · rw [generateRecommendation_optimalTime, c2_decision]
  · rw [generateRecommendation_urgency, c2_decision]
  · norm_num [UrgencyLevel.rank]

/-- C2 (amended): in the moderate-and-above branch with a snow stop
present, when a freeze deadline exists before the wind-adjusted target
the engine pulls the target back to 30 minutes before the freeze
(subject to the engine's not-before-now clamp) and the final tier is the
accumulation-band tier escalated one step (`bandUrgency` of `high`):
urgent at ≥150mm, high at 75–150mm, moderate below 75mm — hence at least
high whenever net accumulation is at least 75mm. -/
theorem C2_freeze_pullback (w : WeatherData) (a : ℚ) (l p : Option ℚ)
    (c : Option (ℕ × ℕ)) (now st ft : ℚ)
    (hmid : midStormGuard w.current.snowfall (netAccumulationOf w l now)
        = false)
    (hna : SNOW_THRESHOLDS.light ≤ netAccumulationOf w l now)
    (hst : snowStopTimeOf w.hourly now = some st)
    (hft : freezeTimeOf w.current w.hourly now = some ft)
    (hpull : ft < st + adjustShovelWindowForWind OPTIMAL_SHOVEL_WINDOW_HOURS
        (avgWindSpeedOf w.hourly now) * HOUR_MS) :
    (generateRecommendation w a l p c now).urgency
        = bandUrgency (netAccumulationOf w l now) UrgencyLevel.high
    ∧ (generateRecommendation w a l p c now).optimalTime
        = some (clampTarget (ft - 30 * 60000) now st w.current.snowfall)
    ∧ (SNOW_THRESHOLDS.moderate ≤ netAccumulationOf w l now →
        UrgencyLevel.rank UrgencyLevel.high
          ≤ ((generateRecommendation w a l p c now).urgency).rank) := by
  have key := urgencyDecision_freeze_pull w.current.snowfall
    (netAccumulationOf w l now) (pileDetected p)
    (blocksDrivewayOf w.hourly c now) (slushWarningOf w.hourly l now)
    (avgWindSpeedOf w.hourly now) now st ft hmid hna hpull
  refine ⟨?_, ?_, ?_⟩
  · rw [generateRecommendation_urgency, hst, hft, key]
  · rw [generateRecommendation_optimalTime, hst, hft, key]
  · intro hmod
    rw [generateRecommendation_urgency, hst, hft, key]
    exact bandUrgency_high_rank _ hmod

/-- C2 witness: the amended theorem applied at the pullback instance. -/
theorem C2_freeze_pullback_witness :
    (generateRecommendation c2weather 50 Option.none Option.none
        Option.none 0).urgency = UrgencyLevel.moderate
    ∧ (generateRecommendation c2weather 50 Option.none Option.none
        Option.none 0).optimalTime = some 5400000 := by
  have h := C2_freeze_pullback c2weather 50 Option.none Option.none
    Option.none 0 7200000 7200000
    (by rw [c2_net]
        norm_num [c2weather, c2current, midStormGuard, shouldShovelMidStorm,
          SNOW_THRESHOLDS.veryHeavy])
    (by rw [c2_net]; norm_num [SNOW_THRESHOLDS.light])
    c2_stop c2_freeze
    (by rw [c2_adjust]; norm_num [HOUR_MS])
  refine ⟨h.1.trans ?_, h.2.1.trans ?_⟩
  · rw [c2_net]
    norm_num [bandUrgency, SNOW_THRESHOLDS.heavy, SNOW_THRESHOLDS.moderate]
  · norm_num [clampTarget, c2weather, c2current]

/-- C3 counterexample: `shouldShovelMidStorm 200` is true — the claim
asserts it is false at exactly 200. -/
theorem C3_counterexample : shouldShovelMidStorm 200 = true := by decide

/-- C3 (amended): the mid-storm trigger fires exactly at and above the
200mm very-heavy threshold (inclusive boundary): it is true at 200 and at
201. -/
theorem C3_mid_storm_threshold :
    shouldShovelMidStorm 200 = true
    ∧ shouldShovelMidStorm 201 = true
    ∧ ∀ x : ℚ, shouldShovelMidStorm x = true
        ↔ SNOW_THRESHOLDS.veryHeavy ≤ x := by
  refine ⟨by decide, by decide, ?_⟩
  intro x
  simp [shouldShovelMidStorm]

/-- C4 counterexample: with an empty hourly series but a reported 50mm
plow pile, the engine returns tier moderate with the action flag true
(net accumulation is still zero) — the claim asserts tier none and flag
false regardless of user parameters. -/
theorem C4_counterexample :
    (generateRecommendation ⟨⟨-5, 0, 0, 50, 10, false⟩, []⟩ 50 Option.none
        (some 50) Option.none 0).urgency = UrgencyLevel.moderate
    ∧ (generateRecommendation ⟨⟨-5, 0, 0, 50, 10, false⟩, []⟩ 50 Option.none
        (some 50) Option.none 0).shouldShovel = true
    ∧ (generateRecommendation ⟨⟨-5, 0, 0, 50, 10, false⟩, []⟩ 50 Option.none
        (some 50) Option.none 0).totalAccumulation = 0 := by
  refine ⟨?_, ?_, ?_⟩
  · rw [generateRecommendation_urgency, netAccumulationOf_nil,
      blocksDrivewayOf_nil, slushWarningOf_nil, snowStopTimeOf_nil,
      show pileDetected (some 50) = true by norm_num [pileDetected],
      urgencyDecision_empty]
    simp
  · rw [generateRecommendation_shouldShovel, netAccumulationOf_nil,
      blocksDrivewayOf_nil, slushWarningOf_nil, snowStopTimeOf_nil,
      show pileDetected (some 50) = true by norm_num [pileDetected],
      urgencyDecision_empty]
    simp
  · rw [generateRecommendation_totalAccumulation, netAccumulationOf_nil]

/-- C4 (amended): an empty hourly series yields zero net accumulation
and, provided no positive plow-pile height is supplied, tier none with
the action flag false; a reported plow pile still triggers the moderate
pile override even on an empty series. -/
theorem C4_empty_series (w : WeatherData) (a : ℚ) (l p : Option ℚ)
    (c : Option (ℕ × ℕ)) (now : ℚ) (hw : w.hourly = []) :
    (generateRecommendation w a l p c now).totalAccumulation = 0
    ∧ (pileDetected p = false →
        (generateRecommendation w a l p c now).urgency = UrgencyLevel.none
        ∧ (generateRecommendation w a l p c now).shouldShovel = false) := by
  obtain ⟨cur, hourly⟩ := w
  simp only at hw
  subst hw
  have hnet := netAccumulationOf_nil cur l now
  refine ⟨?_, ?_⟩
  · rw [generateRecommendation_totalAccumulation]
    exact hnet
  · intro hp
    constructor
    · rw [generateRecommendation_urgency]
      simp only [hnet, hp, blocksDrivewayOf_nil, slushWarningOf_nil,
        snowStopTimeOf_nil]
      rw [urgencyDecision_empty]
      simp
    · rw [generateRecommendation_shouldShovel]
      simp only [hnet, hp, blocksDrivewayOf_nil, slushWarningOf_nil,
        snowStopTimeOf_nil]
      rw [urgencyDecision_empty]
      simp

/-- C4 witness: the amended theorem at an empty series with no pile. -/
theorem C4_empty_series_witness :
    (generateRecommendation ⟨⟨-2, 0, 0, 10, 8, true⟩, []⟩ 50 Option.none
        Option.none Option.none 0).totalAccumulation = 0
    ∧ (generateRecommendation ⟨⟨-2, 0, 0, 10, 8, true⟩, []⟩ 50 Option.none
        Option.none Option.none 0).urgency = UrgencyLevel.none := by
  have h := C4_empty_series ⟨⟨-2, 0, 0, 10, 8, true⟩, []⟩ 50 Option.none
    Option.none Option.none 0 rfl
  exact ⟨h.1, (h.2 rfl).1⟩

/-- C5: the Recommendation never has urgency tier none while its action
flag is true: whenever the tier is none, the flag is false (equivalently,
every branch that sets the flag assigns a tier of at least low). -/
theorem C5_none_tier_no_action (w : WeatherData) (a : ℚ) (l p : Option ℚ)
    (c : Option (ℕ × ℕ)) (now : ℚ)
    (h : (generateRecommendation w a l p c now).urgency
        = UrgencyLevel.none) :
    (generateRecommendation w a l p c now).shouldShovel = false := by
  rw [generateRecommendation_urgency] at h
  rw [generateRecommendation_shouldShovel]
  exact urgencyDecision_none_of_shovel _ _ _ _ _ _ _ _ _ h

/-- C5 witness: the theorem at an empty-forecast input whose tier is
none. -/
theorem C5_none_tier_no_action_witness :
    (generateRecommendation ⟨⟨-2, 0, 0, 10, 8, true⟩, []⟩ 50 Option.none
        Option.none Option.none 0).shouldShovel = false := by
  apply C5_none_tier_no_action
  rw [generateRecommendation_urgency, netAccumulationOf_nil,
    blocksDrivewayOf_nil, slushWarningOf_nil, snowStopTimeOf_nil,
    show pileDetected Option.none = false from rfl, urgencyDecision_empty]
  simp

/-- C6: a present optimal action time is never earlier than now, except
for the 30-minutes-before-freeze backdate (which the engine in fact also
clamps to now, so the left disjunct always holds). -/
theorem C6_optimal_time_not_past (w : WeatherData) (a : ℚ) (l p : Option ℚ)
    (c : Option (ℕ × ℕ)) (now t : ℚ)
    (h : (generateRecommendation w a l p c now).optimalTime = some t) :
    now ≤ t ∨ (∃ ft, freezeTimeOf w.current w.hourly now = some ft
      ∧ t = ft - 30 * 60000) := by
  left
  rw [generateRecommendation_optimalTime] at h
  exact urgencyDecision_time_ge _ _ _ _ _ _ _ _ _ t h

/-- C6 witness: the theorem at a plow-pile input whose optimal time is
now. -/
theorem C6_optimal_time_not_past_witness :
    (0 : ℚ) ≤ 0 ∨ (∃ ft,
      freezeTimeOf (⟨-5, 0, 0, 50, 10, false⟩ : CurrentConditions) [] 0
        = some ft ∧ (0 : ℚ) = ft - 30 * 60000) := by
  apply C6_optimal_time_not_past ⟨⟨-5, 0, 0, 50, 10, false⟩, []⟩ 50
    Option.none (some 50) Option.none 0 0
  rw [generateRecommendation_optimalTime, netAccumulationOf_nil,
    blocksDrivewayOf_nil, slushWarningOf_nil, snowStopTimeOf_nil,
    show pileDetected (some 50) = true by norm_num [pileDetected],
    urgencyDecision_empty]
  simp

/-- C7: holding the current conditions, user parameters and now fixed, a
change of the hourly series that moves net accumulation from below the
10mm negligible threshold to above the 150mm heavy threshold never
decreases the urgency tier (tier order none < low < moderate < high <
urgent). -/
theorem C7_accumulation_monotonicity (w1 w2 : WeatherData) (a : ℚ)
    (l p : Option ℚ) (c : Option (ℕ × ℕ)) (now : ℚ)
    (_hcur : w1.current = w2.current)
    (h1 : netAccumulationOf w1 l now < SNOW_THRESHOLDS.negligible)
    (h2 : SNOW_THRESHOLDS.heavy < netAccumulationOf w2 l now) :
    ((generateRecommendation w1 a l p c now).urgency).rank
      ≤ ((generateRecommendation w2 a l p c now).urgency).rank := by
  rw [generateRecommendation_urgency, generateRecommendation_urgency]
  have hlow := urgencyDecision_rank_le_of_negligible w1.current.snowfall
    (netAccumulationOf w1 l now) (pileDetected p)
    (blocksDrivewayOf w1.hourly c now) (slushWarningOf w1.hourly l now)
    (snowStopTimeOf w1.hourly now) (freezeTimeOf w1.current w1.hourly now)
    (avgWindSpeedOf w1.hourly now) now h1
  have hhigh := urgencyDecision_rank_ge_of_heavy w2.current.snowfall
    (netAccumulationOf w2 l now) (pileDetected p)
    (blocksDrivewayOf w2.hourly c now) (slushWarningOf w2.hourly l now)
    (snowStopTimeOf w2.hourly now) (freezeTimeOf w2.current w2.hourly now)
    (avgWindSpeedOf w2.hourly now) now h2
  omega


theorem c7_net : netAccumulationOf c7w2 Option.none 0 = 180 := by
  norm_num [netAccumulationOf, c7w2, c7current, pastHoursOf, next24HoursOf,
    HOUR_MS, List.filter, snowfallSum, rainSum, solarMeltSum,
    calculateNetAccumulation, calculateRainMelting, RAIN_SNOW_MELT_RATIO,
    qmax, calculateSolarMelting]

/-- C7 witness: the theorem at the pair of instances (0mm vs 180mm). -/
theorem C7_accumulation_monotonicity_witness :
    ((generateRecommendation c7w1 50 Option.none Option.none Option.none
        0).urgency).rank
      ≤ ((generateRecommendation c7w2 50 Option.none Option.none Option.none
        0).urgency).rank := by
  apply C7_accumulation_monotonicity c7w1 c7w2 50 Option.none Option.none
    Option.none 0 rfl
  · rw [show netAccumulationOf c7w1 Option.none 0 = 0 from
      netAccumulationOf_nil c7current Option.none 0]
    norm_num [SNOW_THRESHOLDS.negligible]
  · rw [c7_net]
    norm_num [SNOW_THRESHOLDS.heavy]

/-- C8: the engine is a pure, deterministic function of its arguments:
identical weather, parameters and an identical now give a Recommendation
identical in every field. -/
theorem C8_deterministic (w1 w2 : WeatherData) (a1 a2 : ℚ)
    (l1 l2 p1 p2 : Option ℚ) (c1 c2 : Option (ℕ × ℕ)) (n1 n2 : ℚ)
    (hw : w1 = w2) (ha : a1 = a2) (hl : l1 = l2) (hp : p1 = p2)
    (hc : c1 = c2) (hn : n1 = n2) :
    generateRecommendation w1 a1 l1 p1 c1 n1
      = generateRecommendation w2 a2 l2 p2 c2 n2 := by
  subst hw
  subst ha
  subst hl
  subst hp
  subst hc
  subst hn
  rfl

/-- C8 witness: the theorem at a concrete repeated invocation. -/
theorem C8_deterministic_witness :
    generateRecommendation ⟨⟨0, 0, 0, 0, 0, false⟩, []⟩ 50 Option.none
        Option.none Option.none 0
      = generateRecommendation ⟨⟨0, 0, 0, 0, 0, false⟩, []⟩ 50 Option.none
        Option.none Option.none 0 :=
  C8_deterministic _ _ _ _ _ _ _ _ _ _ _ _ rfl rfl rfl rfl rfl rfl


/-- C9: `calculateSolarMelting` computes exactly the spec's banded solar
melt formula at every input. -/
theorem C9_solar_melting (temp_c cloud_pct hours : ℚ) (is_day : Bool) :
    calculateSolarMelting temp_c cloud_pct hours is_day
      = melt_from_sun_spec temp_c cloud_pct hours is_day := rfl

/-- C10: the Recommendation's currently-snowing flag is true exactly when
the current snapshot has snowfall strictly greater than 0, and with no
current snowfall the mid-storm guard never fires whatever the
accumulation — so a current rain rate alone neither sets the flag nor
enables the mid-storm urgent path. -/
theorem C10_currently_snowing_flag (w : WeatherData) (a : ℚ)
    (l p : Option ℚ) (c : Option (ℕ × ℕ)) (now : ℚ) :
    ((generateRecommendation w a l p c now).isCurrentlySnowing = true
      ↔ 0 < w.current.snowfall)
    ∧ (∀ na : ℚ, w.current.snowfall ≤ 0 →
        midStormGuard w.current.snowfall na = false) := by
  constructor
  · rw [generateRecommendation_isCurrentlySnowing]
    exact decide_eq_true_iff
  · intro na h
    unfold midStormGuard
    have hd : decide (0 < w.current.snowfall) = false := by
      simp only [decide_eq_false_iff_not, not_lt]
      exact h
    rw [hd]
    rfl

/-- C10 witness: the theorem at a raining-but-not-snowing snapshot. -/
theorem C10_currently_snowing_flag_witness :
    (((generateRecommendation ⟨⟨1, 0, 5, 50, 5, true⟩, []⟩ 50 Option.none
        Option.none Option.none 0).isCurrentlySnowing = true)
      ↔ 0 < (⟨⟨1, 0, 5, 50, 5, true⟩, []⟩ : WeatherData).current.snowfall)
    ∧ midStormGuard
        (⟨⟨1, 0, 5, 50, 5, true⟩, []⟩ : WeatherData).current.snowfall 500
        = false :=
  ⟨(C10_currently_snowing_flag ⟨⟨1, 0, 5, 50, 5, true⟩, []⟩ 50 Option.none
      Option.none Option.none 0).1,
   (C10_currently_snowing_flag ⟨⟨1, 0, 5, 50, 5, true⟩, []⟩ 50 Option.none
      Option.none Option.none 0).2 500 (le_refl 0)⟩

end SnowWindow
